import Mathlib

/-!
Verification of the image buffer in src/src/image.rs.

Modelling conventions:
* `u32` / `u8` / `usize` quantities (cols, rows, depth, indices) are modelled
  as `Nat`.  Overflow of the length computation `cols * rows * depth` is the
  only place u32 wrap-around could differ, and the spec leaves that
  implementation-defined, so plain `Nat` arithmetic is used.
* The sample type parameter `T` (Rust `ImageDataType`: u8, u16, f32, f64) is
  an arbitrary Lean type with a `Zero` instance standing for `T::from(0u8)`.
  The code never performs arithmetic on samples, only stores and copies them,
  so this is faithful.  Concrete instances use `Nat` for 8-bit samples.
* Rust `Result<A, String>` is modelled by `RResult ImgError A`; the error
  constructors carry exactly the data interpolated into the source's format
  strings.  A Rust panic (out-of-range slice or `Vec` index) is the extra
  outcome `RResult.crash`.
* `Vec<T>` is `List T`; `data[a..b].to_vec()` is `(data.drop a).take (b - a)`
  guarded by `b ≤ data.length` (the slice-bounds panic), and `data[i] = v` is
  `data.set i v` guarded by `i < data.length`.
-/

/-- The Rust `ColorType` enum. -/
inductive ColorType
  | Mono
  | RGB
  | RGBA
deriving DecidableEq, Repr

/-- Channel depth assigned by `Image::new` for each color type
(Mono → 1, RGB → 3, RGBA → 4). -/
def ColorType.channelDepth : ColorType → Nat
  | .Mono => 1
  | .RGB => 3
  | .RGBA => 4

/-- Error values of the buffer API.  The Rust code returns formatted strings;
the constructors carry exactly the fields interpolated into those strings. -/
inductive ImgError
  | OutOfBounds (col row cols rows : Nat)
  | WrongColorType (actual : ColorType)
deriving DecidableEq, Repr

/-- Outcome of a Rust call: `Ok`, `Err`, or a panic (`crash`). -/
inductive RResult (E A : Type)
  | ok (a : A)
  | err (e : E)
  | crash
deriving DecidableEq, Repr

/-- Map over the success value of an `RResult`. -/
def RResult.map {E A B : Type} (f : A → B) : RResult E A → RResult E B
  | .ok a => .ok (f a)
  | .err e => .err e
  | .crash => .crash

/-- The Rust `Image<T>` struct: cols, rows, channel depth, color type and the
flat sample vector. -/
structure Image (T : Type) where
  cols : Nat
  rows : Nat
  depth : Nat
  color_type : ColorType
  data : List T
deriving DecidableEq, Repr

/-- `Image::new(cols, rows, color_type)`: allocates a zero-filled sample
vector of length `cols * rows` (Mono), `cols * rows * 3` (RGB) or
`cols * rows * 4` (RGBA). -/
def Image.new (T : Type) [Zero T] (cols rows : Nat) (color_type : ColorType) :
    Image T :=
  match color_type with
  | .Mono =>
      { cols := cols, rows := rows, depth := 1, color_type := .Mono,
        data := List.replicate (cols * rows) 0 }
  | .RGB =>
      { cols := cols, rows := rows, depth := 3, color_type := .RGB,
        data := List.replicate (cols * rows * 3) 0 }
  | .RGBA =>
      { cols := cols, rows := rows, depth := 4, color_type := .RGBA,
        data := List.replicate (cols * rows * 4) 0 }

/-- `Image::get_pixel_data(col, row)`: after the bounds check it reads the
slice `data[idx_bot..idx_top]` with `idx_bot = depth * (col * cols + row)`
(note: the source uses `col * cols + row`, not `row * cols + col`) and
`idx_top = idx_bot + depth`; the slice panics (`crash`) when `idx_top`
exceeds the data length. -/
def Image.get_pixel_data {T : Type} (img : Image T) (col row : Nat) :
    RResult ImgError (List T) :=
  if col < img.cols ∧ row < img.rows then
    let idx_bot := img.depth * (col * img.cols + row)
    let idx_top := idx_bot + img.depth
    if idx_top ≤ img.data.length then
      .ok ((img.data.drop idx_bot).take img.depth)
    else
      .crash
  else
    .err (.OutOfBounds col row img.cols img.rows)

/-- `Image::get_pixel_mono(col, row)`: layout check first, then bounds check,
then a single element read at `col * cols + row` (panic if out of range). -/
def Image.get_pixel_mono {T : Type} (img : Image T) (col row : Nat) :
    RResult ImgError T :=
  if img.color_type ≠ ColorType.Mono then
    .err (.WrongColorType img.color_type)
  else if col < img.cols ∧ row < img.rows then
    let idx := col * img.cols + row
    match img.data[idx]? with
    | some v => .ok v
    | none => .crash
  else
    .err (.OutOfBounds col row img.cols img.rows)

/-- The loop `for i in 0..depth { data[i + idx_bot] = val[i]; }` of
`Image::set_pixel_data`, iterated with `rem = depth - i` iterations left.
`none` models a panic: either `val[i]` or `data[i + idx_bot]` out of range. -/
def setLoop {T : Type} (val : List T) (idx_bot : Nat) :
    Nat → Nat → List T → Option (List T)
  | _, 0, data => some data
  | i, rem + 1, data =>
    match val[i]? with
    | none => none
    | some v =>
      if idx_bot + i < data.length then
        setLoop val idx_bot (i + 1) rem (data.set (idx_bot + i) v)
      else
        none

/-- `Image::set_pixel_data(col, row, val)`: bounds check, then the write loop
starting at `idx_bot = depth * (col * cols + row)`. -/
def Image.set_pixel_data {T : Type} (img : Image T) (col row : Nat)
    (val : List T) : RResult ImgError (Image T) :=
  if col < img.cols ∧ row < img.rows then
    let idx_bot := img.depth * (col * img.cols + row)
    match setLoop val idx_bot 0 img.depth img.data with
    | some d => .ok { img with data := d }
    | none => .crash
  else
    .err (.OutOfBounds col row img.cols img.rows)

/-- Buffers reachable from `Image::new` by any sequence of API calls.  The
two getters take `&self` and cannot change the state, so only successful
`set_pixel_data` calls produce new states. -/
inductive Reachable (T : Type) [Zero T] : Image T → Prop
  | create (cols rows : Nat) (ct : ColorType) :
      Reachable T (Image.new T cols rows ct)
  | set (img : Image T) (col row : Nat) (val : List T) (img' : Image T) :
      Reachable T img → img.set_pixel_data col row val = .ok img' →
      Reachable T img'

/-! ## Helper lemmas -/

/-- A successful `setLoop` run preserves the length of the data vector. -/
theorem setLoop_some_length {T : Type} (val : List T) (b : Nat) (rem : Nat) :
    ∀ (i : Nat) (data d : List T),
      setLoop val b i rem data = some d → d.length = data.length := by
  induction rem with
  | zero =>
    intro i data d h
    simp only [setLoop] at h
    cases h
    rfl
  | succ n ih =>
    intro i data d h
    simp only [setLoop] at h
    split at h
    · exact absurd h (by simp)
    · split at h
      · have hlen := ih (i + 1) _ d h
        simpa using hlen
      · exact absurd h (by simp)

/-- A successful `set_pixel_data` call keeps every field except `data`
unchanged and preserves the length of `data`. -/
theorem set_pixel_data_ok_state {T : Type} (img : Image T) (col row : Nat)
    (val : List T) (img' : Image T)
    (h : img.set_pixel_data col row val = .ok img') :
    img'.cols = img.cols ∧ img'.rows = img.rows ∧ img'.depth = img.depth ∧
    img'.color_type = img.color_type ∧
    img'.data.length = img.data.length := by
  simp only [Image.set_pixel_data] at h
  split at h
  · split at h
    · next d hs =>
        injection h with h'
        subst h'
        exact ⟨rfl, rfl, rfl, rfl,
          setLoop_some_length val _ img.depth 0 img.data d hs⟩
    · exact absurd h (by simp)
  · exact absurd h (by simp)

/-! ## Claim theorems -/

/-- C2: on the 3-column, 1-row Mono buffer fresh from `Image::new`, the
coordinate (col = 2, row = 0) is in bounds, yet `get_pixel_data` panics
(out-of-range slice at offset 6 in a 3-element vector) instead of
returning one sample: the in-bounds totality claim fails on the code. -/
theorem get_pixel_data_crashes_in_bounds :
    2 < (Image.new Nat 3 1 ColorType.Mono).cols ∧
    0 < (Image.new Nat 3 1 ColorType.Mono).rows ∧
    (Image.new Nat 3 1 ColorType.Mono).get_pixel_data 2 0 = .crash := by
  decide

/-- C3: on the same 3x1 Mono buffer, `set_pixel_data 2 0 [5]` is in bounds
but panics before writing, so the set-then-get round trip cannot even start:
the round-trip claim fails on the code. -/
theorem set_pixel_data_crashes_in_bounds :
    2 < (Image.new Nat 3 1 ColorType.Mono).cols ∧
    0 < (Image.new Nat 3 1 ColorType.Mono).rows ∧
    (Image.new Nat 3 1 ColorType.Mono).set_pixel_data 2 0 [5] = .crash := by
  decide

/-- C1: on the 2x2 Mono buffer with samples [0, 1, 2, 3], `get_pixel_data 1 0`
returns the sample at flat offset `depth * (col * cols + row) = 2`, namely
[2]; the claimed offset `depth * (row * cols + col) = 1` holds sample value 1,
so the code disagrees with the claimed (and its own documented) layout. -/
theorem get_pixel_data_swaps_col_row :
    ({ cols := 2, rows := 2, depth := 1, color_type := .Mono,
       data := [0, 1, 2, 3] } : Image Nat).get_pixel_data 1 0 = .ok [2] ∧
    (([0, 1, 2, 3] : List Nat).drop (1 * (0 * 2 + 1))).take 1 = [1] := by
  decide

/-- C4: whenever `col ≥ cols` or `row ≥ rows`, all three accessors fail with
the OutOfBounds error carrying the coordinates and dimensions; in particular
`set_pixel_data` returns the error without producing any mutated state. -/
theorem out_of_bounds_all_fail {T : Type} (img : Image T) (col row : Nat)
    (val : List T) (hoob : img.cols ≤ col ∨ img.rows ≤ row) :
    img.get_pixel_data col row =
      .err (.OutOfBounds col row img.cols img.rows) ∧
    img.set_pixel_data col row val =
      .err (.OutOfBounds col row img.cols img.rows) ∧
    (img.color_type = ColorType.Mono →
      img.get_pixel_mono col row =
        .err (.OutOfBounds col row img.cols img.rows)) := by
  have hnot : ¬(col < img.cols ∧ row < img.rows) := by omega
  refine ⟨?_, ?_, ?_⟩
  · simp only [Image.get_pixel_data, if_neg hnot]
  · simp only [Image.set_pixel_data, if_neg hnot]
  · intro hmono
    simp only [Image.get_pixel_mono, hmono]
    simp [hnot]

/-- Witness for C4 at the 2x2 Mono buffer and coordinate (5, 0). -/
theorem out_of_bounds_all_fail_witness :
    (Image.new Nat 2 2 ColorType.Mono).get_pixel_data 5 0 =
      .err (.OutOfBounds 5 0 (Image.new Nat 2 2 ColorType.Mono).cols
        (Image.new Nat 2 2 ColorType.Mono).rows) ∧
    (Image.new Nat 2 2 ColorType.Mono).set_pixel_data 5 0 [9] =
      .err (.OutOfBounds 5 0 (Image.new Nat 2 2 ColorType.Mono).cols
        (Image.new Nat 2 2 ColorType.Mono).rows) ∧
    ((Image.new Nat 2 2 ColorType.Mono).color_type = ColorType.Mono →
      (Image.new Nat 2 2 ColorType.Mono).get_pixel_mono 5 0 =
        .err (.OutOfBounds 5 0 (Image.new Nat 2 2 ColorType.Mono).cols
          (Image.new Nat 2 2 ColorType.Mono).rows)) :=
  out_of_bounds_all_fail (Image.new Nat 2 2 ColorType.Mono) 5 0 [9]
    (Or.inl (by decide))

/-- C5: `Image::new` always succeeds and produces a buffer whose data is a
zero-filled vector of length `cols * rows * channelDepth layout`, with the
`depth` field set from the layout (Mono → 1, RGB → 3, RGBA → 4). -/
theorem new_zero_filled (T : Type) [Zero T] (cols rows : Nat)
    (ct : ColorType) :
    (Image.new T cols rows ct).data =
      List.replicate (cols * rows * ct.channelDepth) (0 : T) ∧
    (Image.new T cols rows ct).depth = ct.channelDepth ∧
    (Image.new T cols rows ct).data.length =
      cols * rows * ct.channelDepth := by
  cases ct <;> simp [Image.new, ColorType.channelDepth]

/-- Witness for C5 at a concrete 2x3 RGB buffer over `Nat`. -/
theorem new_zero_filled_witness :
    (Image.new Nat 2 3 ColorType.RGB).data =
      List.replicate (2 * 3 * ColorType.RGB.channelDepth) (0 : Nat) ∧
    (Image.new Nat 2 3 ColorType.RGB).depth = ColorType.RGB.channelDepth ∧
    (Image.new Nat 2 3 ColorType.RGB).data.length =
      2 * 3 * ColorType.RGB.channelDepth :=
  new_zero_filled Nat 2 3 ColorType.RGB

/-- C6: `get_pixel_mono` on a buffer whose color type is RGB or RGBA fails
with WrongColorType carrying the actual layout, for every coordinate pair
(the layout check precedes the bounds check). -/
theorem get_pixel_mono_wrong_color {T : Type} (img : Image T) (col row : Nat)
    (h : img.color_type = ColorType.RGB ∨ img.color_type = ColorType.RGBA) :
    img.get_pixel_mono col row = .err (.WrongColorType img.color_type) := by
  have hne : img.color_type ≠ ColorType.Mono := by
    rcases h with h | h <;> simp [h]
  simp only [Image.get_pixel_mono, if_pos hne]

/-- Witness for C6 at a 2x2 RGB buffer and the out-of-bounds coordinate
(5, 7), showing the layout error wins regardless of coordinate validity. -/
theorem get_pixel_mono_wrong_color_witness :
    (Image.new Nat 2 2 ColorType.RGB).get_pixel_mono 5 7 =
      .err (.WrongColorType (Image.new Nat 2 2 ColorType.RGB).color_type) :=
  get_pixel_mono_wrong_color (Image.new Nat 2 2 ColorType.RGB) 5 7
    (Or.inl (by decide))

/-- C7: every buffer reachable from `Image::new` by any sequence of API calls
satisfies `data.length = cols * rows * depth` with `depth` determined by the
color type, and a successful `set_pixel_data` never changes cols, rows,
depth or color type. -/
theorem reachable_invariant (T : Type) [Zero T] (img : Image T)
    (h : Reachable T img) :
    (img.data.length = img.cols * img.rows * img.depth ∧
     img.depth = img.color_type.channelDepth) ∧
    (∀ col row val img', img.set_pixel_data col row val = .ok img' →
       img'.cols = img.cols ∧ img'.rows = img.rows ∧
       img'.depth = img.depth ∧ img'.color_type = img.color_type) := by
  induction h with
  | create cols rows ct =>
    refine ⟨?_, ?_⟩
    · cases ct <;> simp [Image.new, ColorType.channelDepth]
    · intro col row val img' hset
      have hs := set_pixel_data_ok_state _ _ _ _ _ hset
      exact ⟨hs.1, hs.2.1, hs.2.2.1, hs.2.2.2.1⟩
  | set img col row val img' hr hok ih =>
    have hs := set_pixel_data_ok_state _ _ _ _ _ hok
    refine ⟨⟨?_, ?_⟩, ?_⟩
    · rw [hs.2.2.2.2, hs.1, hs.2.1, hs.2.2.1]
      exact ih.1.1
    · rw [hs.2.2.1, hs.2.2.2.1]
      exact ih.1.2
    · intro c r v i2 hset
      have hs2 := set_pixel_data_ok_state _ _ _ _ _ hset
      exact ⟨hs2.1, hs2.2.1, hs2.2.2.1, hs2.2.2.2.1⟩

/-- Witness for C7 at a fresh 2x3 Mono buffer. -/
theorem reachable_invariant_witness :
    (((Image.new Nat 2 3 ColorType.Mono).data.length =
        (Image.new Nat 2 3 ColorType.Mono).cols *
          (Image.new Nat 2 3 ColorType.Mono).rows *
          (Image.new Nat 2 3 ColorType.Mono).depth ∧
      (Image.new Nat 2 3 ColorType.Mono).depth =
        (Image.new Nat 2 3 ColorType.Mono).color_type.channelDepth) ∧
     (∀ col row val img',
        (Image.new Nat 2 3 ColorType.Mono).set_pixel_data col row val =
          .ok img' →
        img'.cols = (Image.new Nat 2 3 ColorType.Mono).cols ∧
        img'.rows = (Image.new Nat 2 3 ColorType.Mono).rows ∧
        img'.depth = (Image.new Nat 2 3 ColorType.Mono).depth ∧
        img'.color_type = (Image.new Nat 2 3 ColorType.Mono).color_type)) :=
  reachable_invariant Nat (Image.new Nat 2 3 ColorType.Mono)
    (Reachable.create 2 3 ColorType.Mono)

/-- C8: scenario on a fresh 2x2 Mono buffer over `Nat` (8-bit samples): all
four samples are 0; `set_pixel_data 1 0 [200]` succeeds, after which
`get_pixel_data 1 0` returns [200] and `get_pixel_data 0 0` returns [0]. -/
theorem mono_2x2_scenario :
    (Image.new Nat 2 2 ColorType.Mono).data = [0, 0, 0, 0] ∧
    ∃ img',
      (Image.new Nat 2 2 ColorType.Mono).set_pixel_data 1 0 [200] =
        .ok img' ∧
      img'.get_pixel_data 1 0 = .ok [200] ∧
      img'.get_pixel_data 0 0 = .ok [0] := by
  refine ⟨by decide,
    ⟨{ cols := 2, rows := 2, depth := 1, color_type := .Mono,
       data := [0, 0, 200, 0] }, by decide, by decide, by decide⟩⟩

/-- Taking one element of a suffix extracts the element at the split point. -/
theorem drop_take_one {T : Type} (l : List T) (i : Nat) (h : i < l.length) :
    (l.drop i).take 1 = [l.get ⟨i, h⟩] := by
  rw [List.drop_eq_getElem_cons h]
  rfl

/-- C9: on a buffer whose color type is Mono and whose depth is 1 (the depth
`Image::new` assigns to Mono), `get_pixel_data` is exactly `get_pixel_mono`
with the sample wrapped in a singleton vector: same success value, same
errors, same panic behavior. -/
theorem get_pixel_mono_refines {T : Type} (img : Image T) (col row : Nat)
    (hct : img.color_type = ColorType.Mono) (hd : img.depth = 1) :
    img.get_pixel_data col row =
      (img.get_pixel_mono col row).map (fun v => [v]) := by
  unfold Image.get_pixel_data Image.get_pixel_mono
  rw [hct, hd]
  rw [if_neg (by simp : ¬(ColorType.Mono ≠ ColorType.Mono))]
  by_cases hb : col < img.cols ∧ row < img.rows
  · rw [if_pos hb, if_pos hb]
    simp only [one_mul]
    by_cases hlen : col * img.cols + row < img.data.length
    · rw [if_pos (by omega : col * img.cols + row + 1 ≤ img.data.length)]
      rw [List.getElem?_eq_getElem hlen]
      rw [drop_take_one img.data _ hlen]
      rfl
    · rw [if_neg
        (by omega : ¬(col * img.cols + row + 1 ≤ img.data.length))]
      rw [List.getElem?_eq_none (by omega)]
      rfl
  · rw [if_neg hb, if_neg hb]
    rfl

/-- Witness for C9 at the fresh 2x2 Mono buffer and coordinate (1, 1). -/
theorem get_pixel_mono_refines_witness :
    (Image.new Nat 2 2 ColorType.Mono).get_pixel_data 1 1 =
      ((Image.new Nat 2 2 ColorType.Mono).get_pixel_mono 1 1).map
        (fun v => [v]) :=
  get_pixel_mono_refines (Image.new Nat 2 2 ColorType.Mono) 1 1
    (by decide) (by decide)

/-- C10: in the fresh 2-column by 3-row Mono buffer the distinct in-bounds
pixels (col = 1, row = 0) and (col = 0, row = 2) alias the same flat offset
`col * cols + row = 2`: writing [v] at (1, 0) succeeds and makes
`get_pixel_data 0 2` return [v]. -/
theorem aliasing_2x3 (v : Nat) :
    1 < (Image.new Nat 2 3 ColorType.Mono).cols ∧
    2 < (Image.new Nat 2 3 ColorType.Mono).rows ∧
    ∃ img',
      (Image.new Nat 2 3 ColorType.Mono).set_pixel_data 1 0 [v] =
        .ok img' ∧
      img'.get_pixel_data 0 2 = .ok [v] := by
  refine ⟨by decide, by decide,
    ⟨{ cols := 2, rows := 3, depth := 1, color_type := .Mono,
       data := [0, 0, v, 0, 0, 0] }, ?_, ?_⟩⟩ <;> rfl
